import Mathlib

/-!
Shallow embedding of the snapshot/autosnapshot subsystem of the FPL backend
(src/app/main.py): the upstream fetcher retry loop, the paginated standings
aggregator, the gameweek completion signals, the SQLite-backed snapshot store,
the autosnapshot orchestrator with its exception ladder, and the two history
read endpoints.  JSON records are embedded as structures whose optional fields
are Option-typed (None / absent collapse to Option.none, matching dict.get);
the SQLite database is embedded as the two table names the source mentions,
each either absent (no such table) or a list of rows.
-/

namespace FplBackend

/-- Entry from the event-status endpoint: fields event and bonus_added, either
of which may be absent. -/
structure StatusEntry where
  event : Option Int
  bonus_added : Option Bool
  deriving DecidableEq, Repr

/-- Fixture record: event (gameweek), finished, and the optional
finished_provisional field. -/
structure Fixture where
  event : Option Int
  finished : Option Bool
  finished_provisional : Option Bool
  deriving DecidableEq, Repr

/-- Event record from bootstrap-static events list. -/
structure EventMeta where
  id : Option Int
  finished : Option Bool
  deriving DecidableEq, Repr

/-- The standings object of one page: results rows (opaque entries, embedded
as Int tokens) and the has_next flag (absent reads as false via dict.get). -/
structure Standings where
  results : List Int
  has_next : Option Bool
  deriving DecidableEq, Repr

/-- One page response of leagues-classic standings: opaque league metadata and
the standings object. -/
structure Chunk where
  league : Int
  standings : Standings
  deriving DecidableEq, Repr

/-- Error raised by one upstream GET: a non-2xx response
(httpx.HTTPStatusError, carrying the status code) or any other failure
(connection errors, read timeouts, decode errors). -/
inductive FetchErr where
  | httpStatus (code : Nat) (msg : String)
  | network (msg : String)
  deriving DecidableEq, Repr

/-- Exceptions crossing the route-handler boundary in main.py:
asyncio.TimeoutError, httpx.HTTPStatusError, fastapi.HTTPException, and any
other exception. -/
inductive Exc where
  | timeoutError
  | httpStatusError (code : Nat) (msg : String)
  | httpException (status : Nat) (detail : String)
  | otherError (msg : String)
  deriving DecidableEq, Repr

/-- Embedding of how a fetcher error surfaces as an exception at the route
boundary. -/
def FetchErr.toExc : FetchErr → Exc
  | .httpStatus c m => .httpStatusError c m
  | .network m => .otherError m

/-- Python str of an exception, as used in HTTPException details; Starlette
HTTPException prints as status colon detail. -/
def Exc.str : Exc → String
  | .timeoutError => ""
  | .httpStatusError _ m => m
  | .httpException s d => toString s ++ ": " ++ d
  | .otherError m => m

/-! ### Upstream fetcher (_get_json, main.py lines 44-55) -/

/-- The jittered backoff slept after a failed attempt: 0.05 + random()*0.1
seconds, with the random draw for attempt i given by jitter i. -/
def backoff_delay (jitter : Nat → ℚ) (i : Nat) : ℚ :=
  1/20 + jitter i * (1/10)

/-- The retry loop of _get_json: responses i is what attempt i produces;
returns the final result together with the list of sleeps performed and the
number of attempts made.  Mirrors: for i in range(attempts): try return;
except: last_err := e; sleep(0.05 + random()*0.1); finally raise last_err. -/
def get_json_go {α : Type} (responses : Nat → Except FetchErr α) (jitter : Nat → ℚ) :
    Nat → Nat → Option FetchErr → List ℚ → Nat → Except FetchErr α × List ℚ × Nat
  | _, 0, last_err, sleeps, made =>
      (match last_err with
       | some e => .error e
       | none => .error (.network "raise None"), sleeps, made)
  | i, n+1, _, sleeps, made =>
      match responses i with
      | .ok v => (.ok v, sleeps, made + 1)
      | .error e =>
          get_json_go responses jitter (i+1) n (some e)
            (sleeps ++ [backoff_delay jitter i]) (made + 1)

/-- Embedding of _get_json: run the attempt loop starting from attempt 0 with
no last error; every call site in main.py passes attempts = 2. -/
def _get_json {α : Type} (responses : Nat → Except FetchErr α) (jitter : Nat → ℚ)
    (attempts : Nat) : Except FetchErr α × List ℚ × Nat :=
  get_json_go responses jitter 0 attempts none [] 0

/-! ### Completion signals (main.py lines 63-75, 113-127) -/

/-- Embedding of fixtures_all_finished: an empty list is never finished;
otherwise every fixture must have truthy finished, and a present
finished_provisional must be truthy too. -/
def fixtures_all_finished (fixtures : List Fixture) : Bool :=
  if fixtures.isEmpty then false
  else fixtures.all (fun f => f.finished.getD false && f.finished_provisional.getD true)

/-- Embedding of the bootstrap signal: the first event whose id equals the
gameweek, with truthy finished; no matching event reads as false
(bool(event_meta and event_meta.get(finished))). -/
def gw_finished_flag (events : List EventMeta) (gw : Int) : Bool :=
  match events.find? (fun e => e.id == some gw) with
  | none => false
  | some e => e.finished.getD false

/-- The conjunction the orchestrator tests before snapshotting:
bonus_done and all_done and gw_finished. -/
def finished_verdict (s : StatusEntry) (fixtures : List Fixture)
    (events : List EventMeta) (gw : Int) : Bool :=
  s.bonus_added.getD false && fixtures_all_finished fixtures && gw_finished_flag events gw

/-! ### Standings aggregator (fetch_all_standings, main.py lines 81-92) -/

/-- Appending a later page: only its results list is appended to the
accumulator; league metadata and the accumulator's own has_next are kept. -/
def extend_results (combined chunk : Chunk) : Chunk :=
  { combined with standings :=
      { combined.standings with
          results := combined.standings.results ++ chunk.standings.results } }

/-- Truthiness of a page's has_next flag (dict.get, absent reads falsy). -/
def chunk_has_next (c : Chunk) : Bool :=
  c.standings.has_next.getD false

/-- The while-loop of fetch_all_standings after the first page: keep fetching
pages while the last chunk reported has_next; a page fetch error propagates.
The model feeds the successive page responses as a list; running off its end
stands for an upstream that never answers the next page. -/
def fetch_all_loop : Chunk → Bool → List (Except FetchErr Chunk) → Except FetchErr Chunk
  | combined, false, _ => .ok combined
  | _, true, [] => .error (.network "pagination: upstream exhausted in model")
  | _, true, .error e :: _ => .error e
  | combined, true, .ok c :: cs =>
      fetch_all_loop (extend_results combined c) (chunk_has_next c) cs

/-- Embedding of fetch_all_standings: adopt page 1 as the accumulator, then
loop while has_next is truthy. -/
def fetch_all_standings : List (Except FetchErr Chunk) → Except FetchErr Chunk
  | [] => .error (.network "pagination: upstream exhausted in model")
  | .error e :: _ => .error e
  | .ok c :: cs => fetch_all_loop c (chunk_has_next c) cs

/-! ### Snapshot store (init_db and the INSERT OR IGNORE, main.py 11-29, 132-139) -/

/-- One row of the snapshot table. -/
structure Row where
  league_id : Int
  gw : Int
  taken_at : String
  data : String
  deriving DecidableEq, Repr

/-- The SQLite database, restricted to the two table names the source ever
mentions: each is either absent (none = no such table) or holds its rows. -/
structure DB where
  league_snapshots : Option (List Row)
  snapshots : Option (List Row)
  deriving DecidableEq, Repr

/-- A fresh database file. -/
def emptyDB : DB := ⟨none, none⟩

/-- Embedding of init_db: CREATE TABLE IF NOT EXISTS league_snapshots.  The
snapshots table is never created. -/
def init_db (db : DB) : DB :=
  match db.league_snapshots with
  | some _ => db
  | none => { db with league_snapshots := some [] }

/-- Does the table already hold a row with this (league_id, gw) key? -/
def hasKeyB (rows : List Row) (league_id gw : Int) : Bool :=
  rows.any (fun r => r.league_id == league_id && r.gw == gw)

/-- INSERT OR IGNORE under the UNIQUE(league_id, gw) constraint, at the level
of the row list: a duplicate key leaves the table unchanged. -/
def insertRow (rows : List Row) (r : Row) : List Row :=
  if hasKeyB rows r.league_id r.gw then rows else rows ++ [r]

/-- Embedding of the INSERT OR IGNORE INTO league_snapshots statement: fails
only if the table is absent, never on a duplicate key. -/
def insert_or_ignore_snapshot (db : DB) (r : Row) : Except String DB :=
  match db.league_snapshots with
  | none => .error "no such table: league_snapshots"
  | some rows => .ok { db with league_snapshots := some (insertRow rows r) }

/-- No two rows share a (league_id, gw) key. -/
def uniqueKeysB : List Row → Bool
  | [] => true
  | r :: rs => (!hasKeyB rs r.league_id r.gw) && uniqueKeysB rs

/-! ### Autosnapshot orchestrator (main.py lines 109-149) -/

/-- The upstream responses one orchestration run observes: the event-status
status list, the full fixtures list, the bootstrap events list, and the
successive standings page responses for the requested league. -/
structure Upstream where
  event_status : Except FetchErr (List StatusEntry)
  fixtures : Except FetchErr (List Fixture)
  bootstrap_events : Except FetchErr (List EventMeta)
  standings_pages : List (Except FetchErr Chunk)

/-- Body of the ok:false response when the gameweek is not fully over. -/
structure NotReadyBody where
  gw : Int
  bonus_added : Bool
  fixtures_all_finished : Bool
  gw_finished_flag : Bool
  reason : String
  deriving DecidableEq, Repr

/-- Successful return values of the inner do_work coroutine. -/
inductive WorkOutcome where
  | notReady (body : NotReadyBody)
  | snapshotted (gw : Int)
  deriving DecidableEq, Repr

/-- Embedding of json.dumps over a combined standings chunk (a fixed
serialization; the orchestration never inspects it again). -/
def json_dumps_chunk (c : Chunk) : String :=
  toString c.league ++ "|" ++ toString c.standings.results ++ "|"
    ++ toString (c.standings.has_next.getD false)

/-- The tail of do_work entered only on a positive verdict: run the
aggregator over the standings pages, then INSERT OR IGNORE the serialized
result; an sqlite error would surface as a plain exception. -/
def aggregate_and_persist (u : Upstream) (db : DB) (league_id gw : Int)
    (now : String) : Except Exc (WorkOutcome × DB) :=
  match fetch_all_standings u.standings_pages with
  | .error e => .error e.toExc
  | .ok data =>
      match insert_or_ignore_snapshot db ⟨league_id, gw, now, json_dumps_chunk data⟩ with
      | .error m => .error (.otherError m)
      | .ok db2 => .ok (.snapshotted gw, db2)

/-- Embedding of the do_work coroutine of the autosnapshot route: read the
first status entry (an empty or missing status list reads as an empty dict),
fail with HTTPException 503 when the event id is absent or zero (Python
truthiness of not gw), filter fixtures to the gameweek, evaluate the three
completion signals, and either report not-ready or aggregate and persist. -/
def do_work (u : Upstream) (db : DB) (league_id : Int) (now : String) :
    Except Exc (WorkOutcome × DB) :=
  match u.event_status with
  | .error e => .error e.toExc
  | .ok statusList =>
      let s := statusList.headD ⟨none, none⟩
      let bonus_done := s.bonus_added.getD false
      match s.event with
      | none => .error (.httpException 503 "Could not determine current GW")
      | some gw =>
          if gw = 0 then .error (.httpException 503 "Could not determine current GW")
          else
            match u.fixtures with
            | .error e => .error e.toExc
            | .ok all_fix =>
                let fixtures := all_fix.filter (fun f => f.event == some gw)
                let all_done := fixtures_all_finished fixtures
                match u.bootstrap_events with
                | .error e => .error e.toExc
                | .ok events =>
                    let gw_finished := gw_finished_flag events gw
                    if (bonus_done && all_done && gw_finished) = false then
                      .ok (.notReady
                        ⟨gw, bonus_done, all_done, gw_finished, "GW not fully over yet"⟩, db)
                    else
                      aggregate_and_persist u db league_id gw now

/-- HTTP-level response of the autosnapshot route. -/
inductive Resp where
  | okNotReady (body : NotReadyBody)
  | okSnapshotted (gw : Int)
  | err (status : Nat) (detail : String)
  deriving DecidableEq, Repr

/-- Embedding of the autosnapshot route handler: run do_work, then translate
exceptions through the except ladder of main.py: asyncio.TimeoutError to 504,
httpx.HTTPStatusError to the upstream status code, and every other exception
(including an HTTPException raised inside do_work) to a 500 carrying str(e).
The database is returned alongside, unchanged when an exception escaped. -/
def autosnapshot (u : Upstream) (db : DB) (league_id : Int) (now : String) :
    Resp × DB :=
  match do_work u db league_id now with
  | .ok (.notReady b, db2) => (.okNotReady b, db2)
  | .ok (.snapshotted gw, db2) => (.okSnapshotted gw, db2)
  | .error .timeoutError => (.err 504 "Upstream timeout (FPL API slow)", db)
  | .error (.httpStatusError c m) => (.err c m, db)
  | .error e => (.err 500 e.str, db)

/-- A sequence of autosnapshot triggers run against one database. -/
def run_autosnapshots : DB → List (Upstream × Int × String) → DB
  | db, [] => db
  | db, (u, l, t) :: rest => run_autosnapshots (autosnapshot u db l t).2 rest

/-! ### History read endpoints (main.py lines 152-190) -/

/-- Keep the rows sorted by gw ascending (ORDER BY gw ASC). -/
def insertSortedByGw (r : Row) : List Row → List Row
  | [] => [r]
  | x :: xs => if r.gw ≤ x.gw then r :: x :: xs else x :: insertSortedByGw r xs

/-- Sort rows by gw ascending. -/
def orderByGwAsc (rows : List Row) : List Row :=
  rows.foldr insertSortedByGw []

/-- Response of GET history for a league. -/
inductive HistResp where
  | ok (history : List (Int × String))
  | err (status : Nat) (detail : String)
  deriving DecidableEq, Repr

/-- Embedding of get_history: SELECT gw, data FROM snapshots WHERE league_id
ORDER BY gw ASC; an sqlite error (in particular, the snapshots table not
existing) is caught by the blanket except and answered with a 500. -/
def get_history (db : DB) (league_id : Int) : HistResp :=
  match db.snapshots with
  | none => .err 500 "no such table: snapshots"
  | some rows =>
      .ok ((orderByGwAsc (rows.filter (fun r => r.league_id == league_id))).map
        (fun r => (r.gw, r.data)))

/-- Response of GET history for one gameweek. -/
inductive HistGwResp where
  | ok (gw : Int) (data : String)
  | err (status : Nat) (detail : String)
  deriving DecidableEq, Repr

/-- Embedding of get_history_gw: SELECT data FROM snapshots WHERE league_id
AND gw; a missing table surfaces as a 500, and the HTTPException 404 raised
for a missing row is itself caught by the blanket except Exception of the
handler and re-raised as a 500 carrying str(e). -/
def get_history_gw (db : DB) (league_id gw : Int) : HistGwResp :=
  match db.snapshots with
  | none => .err 500 "no such table: snapshots"
  | some rows =>
      match rows.find? (fun r => r.league_id == league_id && r.gw == gw) with
      | none => .err 500 (Exc.str (.httpException 404 "No snapshot found for that GW"))
      | some r => .ok gw r.data

/-! ### Spec-side formulations of the completion signals (used to compare the
specification text of the Completion Oracle with the code). -/

/-- Signal (a) as the spec words it: the first status entry's bonus_added
flag is true. -/
def specBonusAdded (s : StatusEntry) : Prop :=
  s.bonus_added = some true

/-- Signal (b) as the spec words it: the fixture set of the gameweek is
non-empty, every fixture is finished, and every fixture carrying a
finished_provisional field has it true. -/
def specFixturesSignal (fixtures : List Fixture) : Prop :=
  fixtures.isEmpty = false ∧
    ∀ f ∈ fixtures, f.finished = some true ∧
      (f.finished_provisional = none ∨ f.finished_provisional = some true)

/-- Signal (c) as the spec words it: the bootstrap events list contains an
event whose id equals the gameweek with finished true. -/
def specBootstrapContains (events : List EventMeta) (gw : Int) : Prop :=
  ∃ e ∈ events, e.id = some gw ∧ e.finished = some true

/-- Signal (c) as the code computes it: the first event whose id equals the
gameweek exists and has finished true. -/
def specBootstrapFirstMatch (events : List EventMeta) (gw : Int) : Prop :=
  ∃ e, events.find? (fun x => x.id == some gw) = some e ∧ e.finished = some true

/-! ### Concrete inputs used in counterexamples and witnesses -/

/-- Status list: gameweek 1, bonus added. -/
def c1status : List StatusEntry := [⟨some 1, some true⟩]

/-- One finished fixture of gameweek 1, without a finished_provisional field. -/
def c1fixtures : List Fixture := [⟨some 1, some true, none⟩]

/-- Bootstrap events with a duplicated id: the first copy not finished, the
second finished. -/
def c1events : List EventMeta := [⟨some 1, some false⟩, ⟨some 1, some true⟩]

/-- Upstream responses built from the duplicated-id bootstrap data. -/
def c1upstream : Upstream := ⟨.ok c1status, .ok c1fixtures, .ok c1events, []⟩

/-- Status list: gameweek 3, bonus added. -/
def w1status : List StatusEntry := [⟨some 3, some true⟩]

/-- Fixtures of gameweek 3 finished (provisionally too); one other gameweek. -/
def w1fixtures : List Fixture :=
  [⟨some 3, some true, some true⟩, ⟨some 4, some false, none⟩]

/-- Bootstrap events: gameweek 3 finished. -/
def w1events : List EventMeta := [⟨some 3, some true⟩]

/-- One standings page with no further page. -/
def w1chunk : Chunk := ⟨77, ⟨[5, 6], some false⟩⟩

/-- Upstream responses of a fully finished gameweek 3. -/
def w1upstream : Upstream := ⟨.ok w1status, .ok w1fixtures, .ok w1events, [.ok w1chunk]⟩

/-- Status list: gameweek 2 with bonus added. -/
def w8status : List StatusEntry := [⟨some 2, some true⟩]

/-- Fixtures that all belong to another gameweek. -/
def w8fixtures : List Fixture := [⟨some 9, some true, none⟩]

/-- Bootstrap events: gameweek 2 marked finished. -/
def w8events : List EventMeta := [⟨some 2, some true⟩]

/-- Upstream responses where gameweek 2 has no associated fixtures. -/
def w8upstream : Upstream := ⟨.ok w8status, .ok w8fixtures, .ok w8events, []⟩

/-- A first standings page reporting a further page. -/
def w4front : List Chunk := [⟨10, ⟨[1, 2], some true⟩⟩]

/-- The final standings page. -/
def w4last : Chunk := ⟨99, ⟨[3], some false⟩⟩

/-- A page the upstream could still serve after the last consumed one. -/
def w4extra : List (Except FetchErr Chunk) := [.ok ⟨0, ⟨[7], some false⟩⟩]

/-- First insert for league 1, gameweek 2, payload A. -/
def w3r1 : Row := ⟨1, 2, "t1", "A"⟩

/-- Duplicate insert for league 1, gameweek 2, different payload B. -/
def w3r2 : Row := ⟨1, 2, "t2", "B"⟩

/-- A later insert for a different gameweek. -/
def w3r3 : Row := ⟨1, 3, "t3", "C"⟩

/-- An arbitrary further row. -/
def w3r : Row := ⟨4, 5, "t4", "D"⟩

/-- Upstream whose event-status call surfaces a non-2xx response. -/
def w9aUpstream : Upstream :=
  ⟨.error (.httpStatus 429 "Too Many Requests"), .ok [], .ok [], []⟩

/-- Upstream whose fixtures call surfaces a network error after the
gameweek was determined. -/
def w9bUpstream : Upstream :=
  ⟨.ok [⟨some 2, some true⟩], .error (.network "connection reset"), .ok [], []⟩

/-- Attempt responses: the first attempt fails, the second succeeds. -/
def w10responses : Nat → Except FetchErr Nat :=
  fun i => if i = 0 then .error (.network "boom") else .ok 42

/-- A fixed random draw of one half for every attempt. -/
def w10jitter : Nat → ℚ := fun _ => 1/2

/-- Upstream whose event-status body has an empty status list. -/
def c5aUpstream : Upstream := ⟨.ok [], .ok [], .ok [], []⟩

/-- Upstream whose first status entry carries no event id. -/
def c5bUpstream : Upstream := ⟨.ok [⟨none, some true⟩], .ok [], .ok [], []⟩

end FplBackend

namespace FplBackend

/-! ### Helper lemmas relating the Bool signal computations to their
propositional readings. -/

/-- Truthiness of an optional Bool field equals the field being literally
true. -/
theorem getD_false_eq_true_iff (o : Option Bool) : o.getD false = true ↔ o = some true := by
  cases o with
  | none => simp
  | some b => cases b <;> simp

/-- Truthiness default true of an optional Bool field equals the field being
absent or literally true. -/
theorem getD_true_eq_true_iff (o : Option Bool) :
    o.getD true = true ↔ (o = none ∨ o = some true) := by
  cases o with
  | none => simp
  | some b => cases b <;> simp

/-- The code's fixtures signal agrees with the spec wording of signal (b). -/
theorem fixtures_all_finished_iff (fixtures : List Fixture) :
    fixtures_all_finished fixtures = true ↔ specFixturesSignal fixtures := by
  unfold fixtures_all_finished specFixturesSignal
  cases fixtures with
  | nil => simp
  | cons a l =>
      simp [List.all_eq_true, Bool.and_eq_true, getD_false_eq_true_iff,
        getD_true_eq_true_iff]

/-- The code's bootstrap signal agrees with the first-match reading of
signal (c). -/
theorem gw_finished_flag_iff (events : List EventMeta) (gw : Int) :
    gw_finished_flag events gw = true ↔ specBootstrapFirstMatch events gw := by
  unfold gw_finished_flag specBootstrapFirstMatch
  cases h : events.find? (fun x => x.id == some gw) with
  | none => simp
  | some e => simp [getD_false_eq_true_iff]

/-- The verdict Boolean agrees with the conjunction of the three signals,
with signal (c) in its first-match reading. -/
theorem finished_verdict_iff (s : StatusEntry) (fixtures : List Fixture)
    (events : List EventMeta) (gw : Int) :
    finished_verdict s fixtures events gw = true ↔
      specBonusAdded s ∧ specFixturesSignal fixtures ∧ specBootstrapFirstMatch events gw := by
  unfold finished_verdict specBonusAdded
  simp [Bool.and_eq_true, getD_false_eq_true_iff, fixtures_all_finished_iff,
    gw_finished_flag_iff, and_assoc]

/-- Reduction of do_work once the gameweek is determined and the three fetch
calls succeed: it is exactly the verdict test between not-ready and the
aggregate-then-persist tail. -/
theorem do_work_of_determined (u : Upstream) (db : DB) (league_id : Int) (now : String)
    (statusList : List StatusEntry) (g : Int) (all_fix : List Fixture)
    (events : List EventMeta)
    (hstat : u.event_status = .ok statusList)
    (hev : (statusList.headD ⟨none, none⟩).event = some g)
    (hg : ¬ g = 0)
    (hfx : u.fixtures = .ok all_fix)
    (hbs : u.bootstrap_events = .ok events) :
    do_work u db league_id now =
      (if finished_verdict (statusList.headD ⟨none, none⟩)
            (all_fix.filter (fun f => f.event == some g)) events g = false
       then .ok (.notReady ⟨g, (statusList.headD ⟨none, none⟩).bonus_added.getD false,
              fixtures_all_finished (all_fix.filter (fun f => f.event == some g)),
              gw_finished_flag events g, "GW not fully over yet"⟩, db)
       else aggregate_and_persist u db league_id g now) := by
  unfold do_work
  rw [hstat]
  dsimp only
  rw [hev]
  dsimp only
  rw [if_neg hg, hfx]
  dsimp only
  rw [hbs]
  rfl

/-- C1 counterexample: with bootstrap events duplicating the gameweek id
(first copy unfinished, second finished), the spec-side signals (a), (b) and
(c) all hold for the gameweek taken from event-status, yet the finished
verdict is false and the run returns the NotReady outcome instead of
proceeding — refuting the claimed if-and-only-if with the contains reading
of (c). -/
theorem autosnapshot_finished_verdict_counterexample :
    specBonusAdded (c1status.headD ⟨none, none⟩) ∧
    specFixturesSignal (c1fixtures.filter (fun f => f.event == some 1)) ∧
    specBootstrapContains c1events 1 ∧
    finished_verdict (c1status.headD ⟨none, none⟩)
      (c1fixtures.filter (fun f => f.event == some 1)) c1events 1 = false ∧
    do_work c1upstream (init_db emptyDB) 5 "t" =
      .ok (.notReady ⟨1, true, true, false, "GW not fully over yet"⟩, init_db emptyDB) := by
  refine ⟨rfl, ?_, ?_, by decide, rfl⟩
  · unfold specFixturesSignal
    decide
  · exact ⟨⟨some 1, some true⟩, by decide, rfl, rfl⟩

/-- C1 (amended): for every run of autosnapshot in which the gameweek g is
determined from the first event-status entry and the three signal fetches
succeed, the finished verdict is true if and only if (a) that entry's
bonus_added flag is true, (b) the fixtures of g are non-empty, all finished,
and provisionally finished where the field is present, and (c) the first
bootstrap event whose id equals g exists and has finished true; only when the
verdict holds does the orchestrator proceed to aggregation and persistence,
and otherwise it returns the NotReady outcome carrying the three signal
values and the reason GW not fully over yet. -/
theorem autosnapshot_finished_verdict
    (u : Upstream) (db : DB) (league_id : Int) (now : String)
    (statusList : List StatusEntry) (g : Int) (all_fix : List Fixture)
    (events : List EventMeta)
    (hstat : u.event_status = .ok statusList)
    (hev : (statusList.headD ⟨none, none⟩).event = some g)
    (hg : ¬ g = 0)
    (hfx : u.fixtures = .ok all_fix)
    (hbs : u.bootstrap_events = .ok events) :
    (finished_verdict (statusList.headD ⟨none, none⟩)
        (all_fix.filter (fun f => f.event == some g)) events g = true ↔
      specBonusAdded (statusList.headD ⟨none, none⟩) ∧
        specFixturesSignal (all_fix.filter (fun f => f.event == some g)) ∧
        specBootstrapFirstMatch events g) ∧
    (finished_verdict (statusList.headD ⟨none, none⟩)
        (all_fix.filter (fun f => f.event == some g)) events g = false →
      do_work u db league_id now =
        .ok (.notReady ⟨g, (statusList.headD ⟨none, none⟩).bonus_added.getD false,
          fixtures_all_finished (all_fix.filter (fun f => f.event == some g)),
          gw_finished_flag events g, "GW not fully over yet"⟩, db)) ∧
    (finished_verdict (statusList.headD ⟨none, none⟩)
        (all_fix.filter (fun f => f.event == some g)) events g = true →
      do_work u db league_id now = aggregate_and_persist u db league_id g now) := by
  refine ⟨finished_verdict_iff _ _ _ _, ?_, ?_⟩
  · intro hv
    rw [do_work_of_determined u db league_id now statusList g all_fix events hstat hev hg
      hfx hbs, if_pos hv]
  · intro hv
    rw [do_work_of_determined u db league_id now statusList g all_fix events hstat hev hg
      hfx hbs, if_neg (by rw [hv]; decide)]

/-- Witness for C1: on a concrete fully finished gameweek 3 the hypotheses
hold and the run proceeds to the aggregate-then-persist tail. -/
theorem autosnapshot_finished_verdict_witness :
    do_work w1upstream (init_db emptyDB) 9 "t1" =
      aggregate_and_persist w1upstream (init_db emptyDB) 9 3 "t1" :=
  (autosnapshot_finished_verdict w1upstream (init_db emptyDB) 9 "t1" w1status 3
    w1fixtures w1events rfl rfl (by decide) rfl rfl).2.2 (by decide)

/-- C8: for a gameweek whose set of associated fixtures is empty,
fixtures_all_finished is false and the orchestrator returns NotReady with
fixtures_all_finished false, regardless of the bonus and bootstrap signals. -/
theorem empty_fixture_set_not_finished
    (u : Upstream) (db : DB) (league_id : Int) (now : String)
    (statusList : List StatusEntry) (g : Int) (all_fix : List Fixture)
    (events : List EventMeta)
    (hstat : u.event_status = .ok statusList)
    (hev : (statusList.headD ⟨none, none⟩).event = some g)
    (hg : ¬ g = 0)
    (hfx : u.fixtures = .ok all_fix)
    (hbs : u.bootstrap_events = .ok events)
    (hempty : all_fix.filter (fun f => f.event == some g) = []) :
    fixtures_all_finished (all_fix.filter (fun f => f.event == some g)) = false ∧
    do_work u db league_id now =
      .ok (.notReady ⟨g, (statusList.headD ⟨none, none⟩).bonus_added.getD false, false,
        gw_finished_flag events g, "GW not fully over yet"⟩, db) := by
  have hfaf : fixtures_all_finished (all_fix.filter (fun f => f.event == some g)) = false := by
    rw [hempty]; rfl
  have hv : finished_verdict (statusList.headD ⟨none, none⟩)
      (all_fix.filter (fun f => f.event == some g)) events g = false := by
    unfold finished_verdict
    rw [hfaf]
    simp
  refine ⟨hfaf, ?_⟩
  rw [do_work_of_determined u db league_id now statusList g all_fix events hstat hev hg
    hfx hbs, if_pos hv, hfaf]

/-- Unrolling of the standings pagination loop over pages that all report
has_next until a final page that does not: the loop appends every page's
results to the accumulator in page order and stops at the first page whose
has_next flag is false, leaving any later page responses unconsumed. -/
theorem fetch_all_loop_pages (front : List Chunk) (last : Chunk)
    (extra : List (Except FetchErr Chunk)) :
    ∀ combined : Chunk,
      (∀ c ∈ front, chunk_has_next c = true) →
      chunk_has_next last = false →
      fetch_all_loop combined true ((front ++ [last]).map Except.ok ++ extra) =
        .ok { combined with standings :=
          { combined.standings with results := combined.standings.results ++
              ((front ++ [last]).map (fun c => c.standings.results)).flatten } } := by
  induction front with
  | nil =>
      intro combined hfront hlast
      simp only [List.nil_append, List.map_cons, List.map_nil, List.cons_append,
        fetch_all_loop, hlast]
      simp [extend_results]
  | cons c fr ih =>
      intro combined hfront hlast
      have hc : chunk_has_next c = true := hfront c (List.mem_cons_self c fr)
      simp only [List.cons_append, List.map_cons, fetch_all_loop, hc, List.append_eq]
      rw [ih (extend_results combined c)
        (fun x hx => hfront x (List.mem_cons_of_mem c hx)) hlast]
      simp [extend_results, List.append_assoc]

/-- Witness for C8: gameweek 2 has no associated fixtures in the concrete
input, and the run returns NotReady with the fixtures signal false even
though bonus and bootstrap signals are positive. -/
theorem empty_fixture_set_not_finished_witness :
    fixtures_all_finished (w8fixtures.filter (fun f => f.event == some 2)) = false ∧
    do_work w8upstream (init_db emptyDB) 1 "t" =
      .ok (.notReady ⟨2, true, false, true, "GW not fully over yet"⟩, init_db emptyDB) :=
  empty_fixture_set_not_finished w8upstream (init_db emptyDB) 1 "t" w8status 2
    w8fixtures w8events rfl rfl (by decide) rfl rfl (by decide)

/-- C4: for a league whose standings span a non-empty run of pages, where all
pages before the final one report has_next and the final page does not,
fetch_all_standings returns the first page's object with its results extended
by the results of the later pages in page order; the combined entry count
equals the sum of per-page entry counts, the league metadata is adopted from
page 1, and iteration stops at the first page whose has_next flag is false
(later upstream responses are never consumed). -/
theorem fetch_all_standings_pagination
    (front : List Chunk) (last : Chunk) (extra : List (Except FetchErr Chunk))
    (hfront : ∀ c ∈ front, chunk_has_next c = true)
    (hlast : chunk_has_next last = false) :
    fetch_all_standings ((front ++ [last]).map Except.ok ++ extra) =
      .ok { league := ((front ++ [last]).headD last).league,
            standings :=
              { results := ((front ++ [last]).map (fun c => c.standings.results)).flatten,
                has_next := ((front ++ [last]).headD last).standings.has_next } } ∧
    ((front ++ [last]).map (fun c => c.standings.results)).flatten.length =
      ((front ++ [last]).map (fun c => c.standings.results.length)).sum := by
  constructor
  · cases front with
    | nil =>
        simp only [List.nil_append, List.map_cons, List.map_nil, List.cons_append,
          fetch_all_standings, hlast, fetch_all_loop]
        simp
    | cons c fr =>
        have hc : chunk_has_next c = true := hfront c (List.mem_cons_self c fr)
        simp only [List.cons_append, List.map_cons, fetch_all_standings, hc,
          List.append_eq]
        rw [fetch_all_loop_pages fr last extra c
          (fun x hx => hfront x (List.mem_cons_of_mem c hx)) hlast]
        simp
  · simp only [List.length_flatten, List.map_map]
    rfl

/-- Membership check of a key over an appended row. -/
theorem hasKeyB_append_singleton (rows : List Row) (r : Row) (lid gw : Int) :
    hasKeyB (rows ++ [r]) lid gw =
      (hasKeyB rows lid gw || (r.league_id == lid && r.gw == gw)) := by
  simp [hasKeyB, List.any_append]

/-- Absence of a key means every row fails the key test. -/
theorem hasKeyB_eq_false_iff (rows : List Row) (lid gw : Int) :
    hasKeyB rows lid gw = false ↔
      ∀ x ∈ rows, (x.league_id == lid && x.gw == gw) = false := by
  simp [hasKeyB, List.any_eq_false]

/-- The key-equality test is symmetric in its failure. -/
theorem key_match_symm_false (a b : Row)
    (h : (a.league_id == b.league_id && a.gw == b.gw) = false) :
    (b.league_id == a.league_id && b.gw == a.gw) = false := by
  simp only [Bool.and_eq_false_iff, beq_eq_false_iff_ne] at h ⊢
  rcases h with h | h
  · exact Or.inl (Ne.symm h)
  · exact Or.inr (Ne.symm h)

/-- Appending a row whose key is absent preserves key uniqueness. -/
theorem uniqueKeysB_append_singleton (rows : List Row) (r : Row)
    (hu : uniqueKeysB rows = true) (hk : hasKeyB rows r.league_id r.gw = false) :
    uniqueKeysB (rows ++ [r]) = true := by
  induction rows with
  | nil => rfl
  | cons x xs ih =>
      simp only [uniqueKeysB, Bool.and_eq_true, Bool.not_eq_true'] at hu
      simp only [hasKeyB, List.any_cons, Bool.or_eq_false_iff] at hk
      have hxs : hasKeyB xs r.league_id r.gw = false := hk.2
      have hsymm := key_match_symm_false x r hk.1
      simp only [List.cons_append, uniqueKeysB, Bool.and_eq_true, Bool.not_eq_true']
      constructor
      · rw [List.append_eq, hasKeyB_append_singleton]
        simp [hu.1, hsymm]
      · exact ih hu.2 hxs

/-- INSERT OR IGNORE preserves key uniqueness of the table. -/
theorem uniqueKeysB_insertRow (rows : List Row) (r : Row)
    (hu : uniqueKeysB rows = true) : uniqueKeysB (insertRow rows r) = true := by
  by_cases hk : hasKeyB rows r.league_id r.gw = true
  · rw [insertRow, if_pos hk]
    exact hu
  · have hk2 : hasKeyB rows r.league_id r.gw = false := by
      revert hk
      cases hasKeyB rows r.league_id r.gw <;> simp
    rw [insertRow, if_neg (by simp [hk2])]
    exact uniqueKeysB_append_singleton rows r hu hk2

/-- Any sequence of INSERT OR IGNORE operations preserves key uniqueness. -/
theorem uniqueKeysB_foldl (inserts : List Row) :
    ∀ rows : List Row, uniqueKeysB rows = true →
      uniqueKeysB (inserts.foldl insertRow rows) = true := by
  induction inserts with
  | nil =>
      intro rows hu
      simpa using hu
  | cons r rs ih =>
      intro rows hu
      exact ih (insertRow rows r) (uniqueKeysB_insertRow rows r hu)

/-- Witness for C4: two concrete pages of one and two entries, with a spare
third page response the loop never consumes. -/
theorem fetch_all_standings_pagination_witness :
    fetch_all_standings ((w4front ++ [w4last]).map Except.ok ++ w4extra) =
      .ok ⟨10, ⟨[1, 2, 3], some true⟩⟩ ∧
    ((w4front ++ [w4last]).map (fun c => c.standings.results)).flatten.length =
      ((w4front ++ [w4last]).map (fun c => c.standings.results.length)).sum :=
  ⟨(fetch_all_standings_pagination w4front w4last w4extra (by decide) (by decide)).1,
   (fetch_all_standings_pagination w4front w4last w4extra (by decide) (by decide)).2⟩

/-- C3: inserting twice with the same (league_id, gw) key and different
payloads stores exactly one row for that pair, retaining the first payload,
and the duplicate insert still succeeds; every sequence of inserts starting
from the freshly created table keeps at most one row per key; and an insert
against a database whose league_snapshots table exists never fails the
caller. -/
theorem snapshot_store_insert_if_absent
    (rows : List Row) (r1 r2 : Row) (inserts : List Row) (db : DB)
    (trows : List Row) (r : Row) (snaps : Option (List Row))
    (hlid : r1.league_id = r2.league_id) (hgw : r1.gw = r2.gw)
    (hfresh : hasKeyB rows r1.league_id r1.gw = false)
    (hdb : db.league_snapshots = some trows) :
    insert_or_ignore_snapshot ⟨some rows, snaps⟩ r1 = .ok ⟨some (rows ++ [r1]), snaps⟩ ∧
    insert_or_ignore_snapshot ⟨some (rows ++ [r1]), snaps⟩ r2 =
      .ok ⟨some (rows ++ [r1]), snaps⟩ ∧
    (rows ++ [r1]).filter (fun x => x.league_id == r1.league_id && x.gw == r1.gw) = [r1] ∧
    uniqueKeysB (inserts.foldl insertRow []) = true ∧
    ∃ db2, insert_or_ignore_snapshot db r = .ok db2 := by
  have hkey1 : (r1.league_id == r1.league_id && r1.gw == r1.gw) = true := by simp
  have hkey2 : hasKeyB (rows ++ [r1]) r2.league_id r2.gw = true := by
    rw [hasKeyB_append_singleton, ← hlid, ← hgw, hkey1]
    simp
  refine ⟨?_, ?_, ?_, uniqueKeysB_foldl inserts [] rfl, ?_⟩
  · simp [insert_or_ignore_snapshot, insertRow, hfresh]
  · simp [insert_or_ignore_snapshot, insertRow, hkey2]
  · rw [List.filter_append]
    have hnil : rows.filter (fun x => x.league_id == r1.league_id && x.gw == r1.gw) = [] := by
      rw [List.filter_eq_nil_iff]
      intro x hx
      simp [(hasKeyB_eq_false_iff rows r1.league_id r1.gw).mp hfresh x hx]
    rw [hnil]
    simp [hkey1]
  · rw [insert_or_ignore_snapshot, hdb]
    exact ⟨_, rfl⟩

/-- Witness for C3: payload A then payload B for league 1 gameweek 2; the
table keeps the single row with payload A, the uniqueness invariant holds
over a three-insert sequence, and an insert on the initialized database
succeeds. -/
theorem snapshot_store_insert_if_absent_witness :
    insert_or_ignore_snapshot ⟨some [], none⟩ w3r1 = .ok ⟨some [w3r1], none⟩ ∧
    insert_or_ignore_snapshot ⟨some [w3r1], none⟩ w3r2 = .ok ⟨some [w3r1], none⟩ ∧
    ([w3r1].filter (fun x => x.league_id == w3r1.league_id && x.gw == w3r1.gw)) = [w3r1] ∧
    uniqueKeysB ([w3r1, w3r2, w3r3].foldl insertRow []) = true ∧
    ∃ db2, insert_or_ignore_snapshot (init_db emptyDB) w3r = .ok db2 :=
  snapshot_store_insert_if_absent [] w3r1 w3r2 [w3r1, w3r2, w3r3] (init_db emptyDB)
    [] w3r none rfl rfl rfl rfl

/-- C10: with attempts fixed at 2 as at every call site, the fetcher makes
at most 2 attempts; a successful first attempt returns immediately with no
sleep; a failed first attempt sleeps one jittered backoff interval before
the second; when both attempts fail the surfaced error is the last one
encountered; and the backoff interval lies in the range of 50ms plus a
uniform 0 to 100ms draw. -/
theorem get_json_retry_policy {α : Type} (responses : Nat → Except FetchErr α)
    (jitter : Nat → ℚ) (hj0 : 0 ≤ jitter 0) (hj0b : jitter 0 < 1) :
    ((_get_json responses jitter 2).2.2 ≤ 2) ∧
    (∀ v, responses 0 = .ok v → _get_json responses jitter 2 = (.ok v, [], 1)) ∧
    (∀ e v, responses 0 = .error e → responses 1 = .ok v →
      _get_json responses jitter 2 = (.ok v, [backoff_delay jitter 0], 2)) ∧
    (∀ e0 e1, responses 0 = .error e0 → responses 1 = .error e1 →
      _get_json responses jitter 2 =
        (.error e1, [backoff_delay jitter 0, backoff_delay jitter 1], 2)) ∧
    (1/20 ≤ backoff_delay jitter 0 ∧ backoff_delay jitter 0 < 3/20) := by
  refine ⟨?_, ?_, ?_, ?_, ?_, ?_⟩
  · cases h0 : responses 0 with
    | ok v => simp [_get_json, get_json_go, h0]
    | error e =>
        cases h1 : responses 1 with
        | ok v => simp [_get_json, get_json_go, h0, h1]
        | error e1 => simp [_get_json, get_json_go, h0, h1]
  · intro v h0
    simp [_get_json, get_json_go, h0]
  · intro e v h0 h1
    simp [_get_json, get_json_go, h0, h1]
  · intro e0 e1 h0 h1
    simp [_get_json, get_json_go, h0, h1]
  · unfold backoff_delay
    nlinarith [hj0]
  · unfold backoff_delay
    nlinarith [hj0b]

/-- Witness for C10: first attempt fails, the second succeeds with one
backoff sleep between the attempts. -/
theorem get_json_retry_policy_witness :
    _get_json w10responses w10jitter 2 = (.ok 42, [backoff_delay w10jitter 0], 2) :=
  (get_json_retry_policy w10responses w10jitter (by norm_num [w10jitter])
    (by norm_num [w10jitter])).2.2.1 (.network "boom") 42 rfl rfl

/-- C9: an httpx.HTTPStatusError surfaced by any stage of do_work makes the
route answer with the upstream status code itself, and any other surfaced
error (other than a timeout) is answered with a 500 carrying the error
message; in particular an event-status fetch failing with a non-2xx response
propagates its status code. -/
theorem autosnapshot_error_mapping (u : Upstream) (db : DB) (league_id : Int)
    (now : String) :
    (∀ c m, do_work u db league_id now = .error (.httpStatusError c m) →
      autosnapshot u db league_id now = (.err c m, db)) ∧
    (∀ m, do_work u db league_id now = .error (.otherError m) →
      autosnapshot u db league_id now = (.err 500 m, db)) ∧
    (∀ c m, u.event_status = .error (.httpStatus c m) →
      autosnapshot u db league_id now = (.err c m, db)) := by
  refine ⟨?_, ?_, ?_⟩
  · intro c m h
    simp [autosnapshot, h]
  · intro m h
    simp [autosnapshot, h, Exc.str]
  · intro c m h
    have hw : do_work u db league_id now = .error (.httpStatusError c m) := by
      unfold do_work
      rw [h]
      rfl
    simp [autosnapshot, hw]

/-- Witness for C9: a 429 from event-status is passed through, and a network
error after the gameweek was determined is answered as a 500 with the error
message. -/
theorem autosnapshot_error_mapping_witness :
    autosnapshot w9aUpstream (init_db emptyDB) 1 "t" =
      (.err 429 "Too Many Requests", init_db emptyDB) ∧
    autosnapshot w9bUpstream (init_db emptyDB) 1 "t" =
      (.err 500 "connection reset", init_db emptyDB) :=
  ⟨(autosnapshot_error_mapping w9aUpstream (init_db emptyDB) 1 "t").2.2 429
      "Too Many Requests" rfl,
   (autosnapshot_error_mapping w9bUpstream (init_db emptyDB) 1 "t").2.1
      "connection reset" rfl⟩

/-- C5 evaluation at the failing inputs: with an empty status list, or a
first entry lacking an event id, do_work raises the HTTPException carrying
status 503 without touching the store or the aggregator, but the route's
blanket except Exception catches that very exception and responds 500 with
str(e) — the claimed 503-equivalent response is never surfaced, and the
database is returned unchanged. -/
theorem autosnapshot_gw_undetermined_responds_500 :
    do_work c5aUpstream (init_db emptyDB) 7 "t0" =
      .error (.httpException 503 "Could not determine current GW") ∧
    autosnapshot c5aUpstream (init_db emptyDB) 7 "t0" =
      (.err 500 "503: Could not determine current GW", init_db emptyDB) ∧
    autosnapshot c5bUpstream (init_db emptyDB) 7 "t0" =
      (.err 500 "503: Could not determine current GW", init_db emptyDB) := by
  refine ⟨rfl, ?_, ?_⟩ <;> rfl

/-- C6 evaluation: on the database init_db creates, the snapshots table the
history handlers query does not exist, so reading any (league, gw) answers
500 rather than the claimed 404; and even on a database where a snapshots
table exists but holds no row for the pair, the HTTPException 404 the
handler raises inside its own try block is caught by the blanket except
Exception and converted to a 500 carrying str(e). -/
theorem get_history_gw_missing_snapshot_responds_500 :
    get_history_gw (init_db emptyDB) 1 1 = .err 500 "no such table: snapshots" ∧
    get_history_gw ⟨some [], some []⟩ 1 1 =
      .err 500 "404: No snapshot found for that GW" := by
  constructor <;> rfl

/-- Persisting a snapshot writes only the league_snapshots table. -/
theorem insert_preserves_snapshots_table (db : DB) (r : Row) (db2 : DB)
    (h : insert_or_ignore_snapshot db r = .ok db2) : db2.snapshots = db.snapshots := by
  unfold insert_or_ignore_snapshot at h
  cases hls : db.league_snapshots with
  | none =>
      rw [hls] at h
      cases h
  | some rows =>
      rw [hls] at h
      cases h
      rfl

/-- The aggregate-then-persist tail never writes the snapshots table. -/
theorem aggregate_preserves_snapshots_table (u : Upstream) (db : DB)
    (league_id gw : Int) (now : String) (o : WorkOutcome) (db2 : DB)
    (h : aggregate_and_persist u db league_id gw now = .ok (o, db2)) :
    db2.snapshots = db.snapshots := by
  unfold aggregate_and_persist at h
  split at h
  · cases h
  · split at h
    · cases h
    · cases h
      exact insert_preserves_snapshots_table db _ _ (by assumption)

/-- A successful do_work run never writes the snapshots table. -/
theorem do_work_preserves_snapshots_table (u : Upstream) (db : DB)
    (league_id : Int) (now : String) (o : WorkOutcome) (db2 : DB)
    (h : do_work u db league_id now = .ok (o, db2)) : db2.snapshots = db.snapshots := by
  unfold do_work at h
  dsimp only at h
  repeat' split at h
  all_goals
    first
      | (cases h <;> rfl)
      | exact aggregate_preserves_snapshots_table u db league_id _ now o db2 h

/-- One autosnapshot run, whatever its outcome, leaves the snapshots table
exactly as it was. -/
theorem autosnapshot_preserves_snapshots_table (u : Upstream) (db : DB)
    (league_id : Int) (now : String) :
    ((autosnapshot u db league_id now).2).snapshots = db.snapshots := by
  unfold autosnapshot
  cases h : do_work u db league_id now with
  | error e => cases e <;> rfl
  | ok p =>
      obtain ⟨o, db2⟩ := p
      cases o with
      | notReady b =>
          simpa using do_work_preserves_snapshots_table u db league_id now
            (.notReady b) db2 h
      | snapshotted g =>
          simpa using do_work_preserves_snapshots_table u db league_id now
            (.snapshotted g) db2 h

/-- A whole sequence of autosnapshot runs leaves the snapshots table as it
was. -/
theorem run_autosnapshots_preserves_snapshots_table
    (calls : List (Upstream × Int × String)) :
    ∀ db : DB, (run_autosnapshots db calls).snapshots = db.snapshots := by
  induction calls with
  | nil =>
      intro db
      rfl
  | cons c rest ih =>
      intro db
      obtain ⟨u, l, t⟩ := c
      show (run_autosnapshots (autosnapshot u db l t).2 rest).snapshots = db.snapshots
      rw [ih ((autosnapshot u db l t).2)]
      exact autosnapshot_preserves_snapshots_table u db l t

/-- C7: autosnapshot inserts rows only into the league_snapshots table (the
sole table created at startup), while both history endpoints query a table
named snapshots; consequently, after any sequence of autosnapshot runs
against a freshly initialized database, the snapshots table still does not
exist and both history read endpoints answer the no-such-table 500 — a
snapshot persisted by autosnapshot is never returned by either endpoint. -/
theorem autosnapshot_rows_invisible_to_history
    (calls : List (Upstream × Int × String)) (league_id gw : Int) :
    (run_autosnapshots (init_db emptyDB) calls).snapshots = none ∧
    get_history (run_autosnapshots (init_db emptyDB) calls) league_id =
      .err 500 "no such table: snapshots" ∧
    get_history_gw (run_autosnapshots (init_db emptyDB) calls) league_id gw =
      .err 500 "no such table: snapshots" := by
  have hnone : (run_autosnapshots (init_db emptyDB) calls).snapshots = none :=
    run_autosnapshots_preserves_snapshots_table calls (init_db emptyDB)
  refine ⟨hnone, ?_, ?_⟩
  · unfold get_history
    rw [hnone]
  · unfold get_history_gw
    rw [hnone]

end FplBackend
